import Mathlib

/-!
Verification of the supakeys passkey relying-party engine.

The definitions below are a shallow embedding of the Supabase edge function
emitted by `getEdgeFunctionCode` and of the SQL function
`check_passkey_rate_limit` emitted by `getMigrationSQL` (CLI `init` command),
together with the client-side error mapper (`mapWebAuthnError`,
`isPasskeyError`).  Database tables become lists of records inside a `Store`
value; each endpoint of the edge function's `switch` becomes a pure function
`Store → … → Store × ApiResult _`.  Timestamps are naturals (milliseconds);
random values produced at runtime (challenge nonces, WebAuthn user ids,
fresh row ids, magic-link token hashes) are passed in as explicit arguments.
The external `@simplewebauthn/server` verifier is not part of the repository;
where a claim depends on its behaviour it is modelled from the spec's
verifier contract (see `verifyAuthenticationResponse`).
-/

/-- `type` column of `passkey_challenges`: `'registration' | 'authentication'`. -/
inductive ChallengeType where
  | registration
  | authentication
deriving DecidableEq, Repr, BEq

/-- `event_type` values of the `passkey_audit_event` SQL enum. -/
inductive AuditEventType where
  | registration_started
  | registration_completed
  | registration_failed
  | authentication_started
  | authentication_completed
  | authentication_failed
  | passkey_removed
  | passkey_updated
  | rate_limit_exceeded
  | challenge_expired
  | counter_mismatch
deriving DecidableEq, Repr, BEq

/-- Row of `public.passkey_credentials`. -/
structure Credential where
  id : String
  user_id : String
  webauthn_user_id : Option String
  public_key : String
  counter : Nat
  device_type : String
  backed_up : Bool
  transports : List String
  authenticator_name : Option String
  created_at : Nat
  last_used_at : Option Nat
deriving DecidableEq, Repr

/-- Row of `public.passkey_challenges`. -/
structure Challenge where
  id : String
  challenge : String
  email : Option String
  webauthn_user_id : Option String
  type : ChallengeType
  expires_at : Nat
deriving DecidableEq, Repr

/-- Row of `public.passkey_rate_limits`. -/
structure RateLimitRow where
  identifier : String
  identifier_type : String
  endpoint : String
  attempt_count : Nat
  window_start : Nat
deriving DecidableEq, Repr

/-- Row of `public.passkey_audit_log` (columns the code writes). -/
structure AuditEvent where
  event_type : AuditEventType
  user_id : Option String := none
  credential_id : Option String := none
  email : Option String := none
  ip_address : Option String := none
  origin : Option String := none
  error_message : Option String := none
deriving DecidableEq, Repr

/-- Row of `auth.users` as seen through `supabase.auth.admin`
(`listUsers` / `createUser` / `getUserById`). -/
structure AuthUser where
  id : String
  email : Option String
deriving DecidableEq, Repr

/-- The durable state shared by all endpoints: the four passkey tables plus
the external identity provider's user table. -/
structure Store where
  credentials : List Credential
  challenges : List Challenge
  rateLimits : List RateLimitRow
  auditLog : List AuditEvent
  users : List AuthUser
deriving DecidableEq, Repr

/-- `{ success: boolean; data?: T; error?: { code, message } }`. -/
inductive ApiResult (α : Type) where
  | ok (data : α)
  | err (code : String) (message : String)
deriving DecidableEq, Repr

/-- `log_passkey_audit_event`: appends one row to `passkey_audit_log`. -/
def logAudit (s : Store) (e : AuditEvent) : Store :=
  { s with auditLog := s.auditLog ++ [e] }

/-- Supabase `.single()`: yields the row only when exactly one row matches. -/
def selectSingle {α : Type} (l : List α) (p : α → Bool) : Option α :=
  match l.filter p with
  | [x] => some x
  | _ => none

/-- `date_trunc('minute', NOW())` on millisecond timestamps. -/
def dateTruncMinute (now : Nat) : Nat :=
  now / 60000 * 60000

/-- The unique key of `passkey_rate_limits`
(`identifier, identifier_type, endpoint, window_start`). -/
def rateKey (identifier idType endpoint : String) (ws : Nat) (r : RateLimitRow) : Bool :=
  r.identifier == identifier && r.identifier_type == idType &&
    r.endpoint == endpoint && r.window_start == ws

/-- SQL function `check_passkey_rate_limit`: upsert on the window key
(`INSERT … ON CONFLICT … DO UPDATE SET attempt_count = attempt_count + 1`,
`RETURNING attempt_count`), then report `attempt_count > p_max_attempts`. -/
def check_passkey_rate_limit (s : Store) (identifier idType endpoint : String)
    (maxAttempts : Nat) (now : Nat) : Store × Bool :=
  let ws := dateTruncMinute now
  match s.rateLimits.find? (rateKey identifier idType endpoint ws) with
  | some r =>
      let updated := s.rateLimits.map fun q =>
        if rateKey identifier idType endpoint ws q then
          { q with attempt_count := q.attempt_count + 1 }
        else q
      ({ s with rateLimits := updated }, decide (r.attempt_count + 1 > maxAttempts))
  | none =>
      ({ s with rateLimits :=
          s.rateLimits ++ [⟨identifier, idType, endpoint, 1, ws⟩] },
        decide (1 > maxAttempts))

/-- `RATE_LIMITS.ip.maxAttempts` in the edge function. -/
def rateLimitIpMaxAttempts : Nat := 5

/-- `RATE_LIMITS.email.maxAttempts` in the edge function (declared but the
edge function never invokes the limiter with `identifier_type = 'email'`). -/
def rateLimitEmailMaxAttempts : Nat := 10

/-- `CHALLENGE_TTL_MINUTES * 60 * 1000`. -/
def challengeTtlMs : Nat := 5 * 60 * 1000

/-- Payload of a successful `/register/start`
(`{ options, challengeId }`, with the fields of `options` that depend on
the request: the nonce, the relying-party data and the exclusion list). -/
structure RegStartData where
  rpId : String
  rpName : String
  challengeNonce : String
  excludeCredentials : List String
  challengeId : String
deriving DecidableEq, Repr

/-- `/register/start`: IP-scoped rate-limit check, exclusion-list query keyed
on the freshly generated `webauthnUserId` (with `.limit(1)`), insertion of a
`registration` challenge, `registration_started` audit event.  `wuid` is the
value returned by `generateWebAuthnUserId()`, `nonce` the challenge produced
by `generateRegistrationOptions`, `newChallengeId` the row id generated by
the database for the inserted challenge. -/
def registerStart (s : Store) (clientIP origin rpId rpName email : String)
    (wuid nonce newChallengeId : String) (now : Nat) :
    Store × ApiResult RegStartData :=
  let (s1, ipBlocked) :=
    check_passkey_rate_limit s clientIP "ip" "/register/start"
      rateLimitIpMaxAttempts now
  if ipBlocked then
    (s1, .err "RATE_LIMITED" "Too many requests")
  else
    let excludeCredentials :=
      ((s1.credentials.filter (fun c => c.webauthn_user_id == some wuid)).take 1).map
        (fun c => c.id)
    let chRow : Challenge :=
      { id := newChallengeId, challenge := nonce, email := some email,
        webauthn_user_id := some wuid, type := .registration,
        expires_at := now + challengeTtlMs }
    let s2 := { s1 with challenges := s1.challenges ++ [chRow] }
    let s3 := logAudit s2
      { event_type := .registration_started, email := some email,
        ip_address := some clientIP, origin := some origin }
    (s3, .ok { rpId := rpId, rpName := rpName, challengeNonce := nonce,
               excludeCredentials := excludeCredentials,
               challengeId := newChallengeId })

/-- `verification.registrationInfo` of the external
`verifyRegistrationResponse` (tagged result at the verifier boundary). -/
structure VerifiedRegistration where
  credentialId : String
  publicKey : String
  counter : Nat
  transports : List String
  deviceType : String
  backedUp : Bool
deriving DecidableEq, Repr

/-- Public passkey metadata returned by `/register/finish` and
`/passkeys/list`. -/
structure PasskeyMeta where
  id : String
  authenticatorName : Option String
  deviceType : String
  backedUp : Bool
  createdAt : Nat
  lastUsedAt : Option Nat
deriving DecidableEq, Repr

/-- Payload of a successful `/register/finish`
(`{ verified, tokenHash, passkey }`). -/
structure RegFinishData where
  verified : Bool
  tokenHash : String
  passkey : Option PasskeyMeta
deriving DecidableEq, Repr

/-- Build the `PasskeyMeta` view of an inserted credential row. -/
def credMeta (c : Credential) : PasskeyMeta :=
  { id := c.id, authenticatorName := c.authenticator_name,
    deviceType := c.device_type, backedUp := c.backed_up,
    createdAt := c.created_at, lastUsedAt := c.last_used_at }

/-- `/register/finish`: single-row select of the challenge by
`(id, type = 'registration')`, unconditional delete by `id` alone, then the
mismatch / expired / verifier branches.  `verification` is the outcome of the
external `verifyRegistrationResponse` call (`none` when it throws or reports
`verified = false`); `newUserId` is the id `auth.admin.createUser` would
assign, `tokenHash` the `generateLink` magic-link token hash. -/
def registerFinish (s : Store) (clientIP challengeId : String)
    (authenticatorName : Option String)
    (verification : Option VerifiedRegistration)
    (newUserId tokenHash : String) (now : Nat) :
    Store × ApiResult RegFinishData :=
  let found := selectSingle s.challenges
    (fun c => c.id == challengeId && c.type == ChallengeType.registration)
  let s1 := { s with challenges := s.challenges.filter (fun c => !(c.id == challengeId)) }
  match found with
  | none => (s1, .err "CHALLENGE_MISMATCH" "Invalid or expired challenge")
  | some ch =>
    if ch.expires_at < now then
      (logAudit s1 { event_type := .challenge_expired, email := ch.email,
                     ip_address := some clientIP },
        .err "CHALLENGE_EXPIRED" "Challenge has expired")
    else
      match verification with
      | none =>
          (logAudit s1 { event_type := .registration_failed, email := ch.email,
                         ip_address := some clientIP,
                         error_message := some "Verification failed" },
            .err "VERIFICATION_FAILED" "Registration verification failed")
      | some info =>
          let userId :=
            match s1.users.find? (fun u => u.email == ch.email) with
            | some u => u.id
            | none => newUserId
          let s2 :=
            match s1.users.find? (fun u => u.email == ch.email) with
            | some _ => s1
            | none => { s1 with users := s1.users ++ [(⟨newUserId, ch.email⟩ : AuthUser)] }
          let cred : Credential :=
            { id := info.credentialId, user_id := userId,
              webauthn_user_id := ch.webauthn_user_id,
              public_key := info.publicKey, counter := info.counter,
              device_type := info.deviceType, backed_up := info.backedUp,
              transports := info.transports,
              authenticator_name := authenticatorName,
              created_at := now, last_used_at := none }
          let s3 := { s2 with credentials := s2.credentials ++ [cred] }
          let s4 := logAudit s3
            { event_type := .registration_completed, user_id := some userId,
              credential_id := some info.credentialId, email := ch.email,
              ip_address := some clientIP }
          (s4, .ok { verified := true, tokenHash := tokenHash,
                     passkey := some (credMeta cred) })

/-- Payload of a successful `/login/start` (`{ options, challengeId }`;
`allowCredentials` is `none` for the discoverable, email-less flow). -/
structure LoginStartData where
  rpId : String
  challengeNonce : String
  allowCredentials : Option (List String)
  challengeId : String
deriving DecidableEq, Repr

/-- `/login/start`: IP-scoped rate-limit check; when an email is supplied,
resolve the user via `listUsers` and require at least one stored credential
(else `CREDENTIAL_NOT_FOUND` before any challenge insert); insert an
`authentication` challenge; `authentication_started` audit event. -/
def loginStart (s : Store) (clientIP rpId : String) (email : Option String)
    (nonce newChallengeId : String) (now : Nat) :
    Store × ApiResult LoginStartData :=
  let (s1, ipBlocked) :=
    check_passkey_rate_limit s clientIP "ip" "/login/start"
      rateLimitIpMaxAttempts now
  if ipBlocked then
    (s1, .err "RATE_LIMITED" "Too many requests")
  else
    let resolved : ApiResult (Option (List String)) :=
      match email with
      | none => .ok none
      | some e =>
        match s1.users.find? (fun u => u.email == some e) with
        | none => .err "CREDENTIAL_NOT_FOUND" "No passkey found for this email"
        | some user =>
          let creds := s1.credentials.filter (fun c => c.user_id == user.id)
          if creds.isEmpty then
            .err "CREDENTIAL_NOT_FOUND" "No passkey found for this email"
          else
            .ok (some (creds.map (fun c => c.id)))
    match resolved with
    | .err code msg => (s1, .err code msg)
    | .ok allowCredentials =>
      let chRow : Challenge :=
        { id := newChallengeId, challenge := nonce, email := email,
          webauthn_user_id := none, type := .authentication,
          expires_at := now + challengeTtlMs }
      let s2 := { s1 with challenges := s1.challenges ++ [chRow] }
      let s3 := logAudit s2
        { event_type := .authentication_started, email := email,
          ip_address := some clientIP }
      (s3, .ok { rpId := rpId, challengeNonce := nonce,
                 allowCredentials := allowCredentials,
                 challengeId := newChallengeId })

/-- The authenticator's assertion response as the edge function and the
verifier consume it: the credential id it names, the challenge / origin /
relying-party id embedded in its client data, its embedded signature
counter, and an abstraction of cryptographic signature validity. -/
structure AuthResponse where
  id : String
  embeddedChallenge : String
  embeddedOrigin : String
  embeddedRpId : String
  counter : Nat
  signatureValid : Bool
deriving DecidableEq, Repr

/-- `verification.authenticationInfo` of a successful verifier call. -/
structure AuthVerification where
  newCounter : Nat
deriving DecidableEq, Repr

/-- Modelled from the spec: the external `@simplewebauthn/server`
`verifyAuthenticationResponse` is not part of this repository; per the
spec's Verifier contract it must check (a) the embedded challenge equals the
stored nonce, (b) the embedded origin equals the observed origin, (c) the
embedded relying-party identity equals the configured one, (d) signature
validity, and (e) that the embedded signature counter is strictly greater
than the stored counter, any single failure being fatal. -/
def verifyAuthenticationResponse (resp : AuthResponse)
    (expectedChallenge expectedOrigin expectedRPID : String)
    (storedCounter : Nat) : Option AuthVerification :=
  if resp.embeddedChallenge == expectedChallenge
      && resp.embeddedOrigin == expectedOrigin
      && resp.embeddedRpId == expectedRPID
      && resp.signatureValid
      && storedCounter < resp.counter then
    some { newCounter := resp.counter }
  else
    none

/-- JavaScript `a || b` on nullable strings (empty string is falsy). -/
def jsOrElse (a b : Option String) : Option String :=
  match a with
  | some v => if v == "" then b else some v
  | none => b

/-- Payload of a successful `/login/finish`
(`{ verified, tokenHash, email }`). -/
structure LoginFinishData where
  verified : Bool
  tokenHash : String
  email : Option String
deriving DecidableEq, Repr

/-- `/login/finish`: single-row select of the challenge by
`(id, type = 'authentication')`, unconditional delete by `id` alone,
mismatch / expired branches (the expired branch emits no audit event),
credential lookup by the response's credential id, verifier call, and — only
on verifier success — the counter / `last_used_at` update, magic link and
`authentication_completed` audit event. -/
def loginFinish (s : Store) (clientIP origin rpId challengeId : String)
    (resp : AuthResponse) (tokenHash : String) (now : Nat) :
    Store × ApiResult LoginFinishData :=
  let found := selectSingle s.challenges
    (fun c => c.id == challengeId && c.type == ChallengeType.authentication)
  let s1 := { s with challenges := s.challenges.filter (fun c => !(c.id == challengeId)) }
  match found with
  | none => (s1, .err "CHALLENGE_MISMATCH" "Invalid or expired challenge")
  | some ch =>
    if ch.expires_at < now then
      (s1, .err "CHALLENGE_EXPIRED" "Challenge has expired")
    else
      match selectSingle s1.credentials (fun c => c.id == resp.id) with
      | none => (s1, .err "CREDENTIAL_NOT_FOUND" "Credential not found")
      | some credential =>
        match verifyAuthenticationResponse resp ch.challenge origin rpId
            credential.counter with
        | none =>
            (logAudit s1
              { event_type := .authentication_failed,
                credential_id := some resp.id, ip_address := some clientIP,
                error_message := some "Verification failed" },
              .err "VERIFICATION_FAILED" "Authentication verification failed")
        | some verification =>
            let s2 := { s1 with credentials := s1.credentials.map fun c =>
              if c.id == resp.id then
                { c with counter := verification.newCounter,
                         last_used_at := some now }
              else c }
            let userEmail := jsOrElse
              ((s2.users.find? (fun u => u.id == credential.user_id)).bind
                (fun u => u.email))
              ch.email
            let s3 := logAudit s2
              { event_type := .authentication_completed,
                user_id := some credential.user_id,
                credential_id := some resp.id, ip_address := some clientIP }
            (s3, .ok { verified := true, tokenHash := tokenHash,
                       email := userEmail })

/-- `/passkeys/list`: requires a caller identity (validated bearer token,
passed here as `user`); returns the caller's credentials. -/
def passkeysList (s : Store) (user : Option AuthUser) :
    Store × ApiResult (List PasskeyMeta) :=
  match user with
  | none => (s, .err "UNAUTHORIZED" "Authentication required")
  | some u =>
      (s, .ok ((s.credentials.filter (fun c => c.user_id == u.id)).map credMeta))

/-- The owner-scoped row condition `.eq('id', credentialId).eq('user_id',
user.id)` used by `/passkeys/remove` and `/passkeys/update`. -/
def credOwnedMatch (credentialId uid : String) (c : Credential) : Bool :=
  c.id == credentialId && c.user_id == uid

/-- `/passkeys/remove`: requires a caller identity; deletes rows matching
both the credential id and the caller's user id, logs `passkey_removed`, and
returns `{ removed: true }` unconditionally (no not-found check). -/
def passkeysRemove (s : Store) (user : Option AuthUser)
    (credentialId clientIP : String) : Store × ApiResult Bool :=
  match user with
  | none => (s, .err "UNAUTHORIZED" "Authentication required")
  | some u =>
      let s1 := { s with credentials :=
        s.credentials.filter (fun c => !(credOwnedMatch credentialId u.id c)) }
      let s2 := logAudit s1
        { event_type := .passkey_removed, user_id := some u.id,
          credential_id := some credentialId, ip_address := some clientIP }
      (s2, .ok true)

/-- `/passkeys/update`: requires a caller identity; updates
`authenticator_name` on rows matching both the credential id and the
caller's user id; `.select().single()` yields the updated row only when
exactly one row matched, else `CREDENTIAL_NOT_FOUND`. -/
def passkeysUpdate (s : Store) (user : Option AuthUser)
    (credentialId authenticatorName clientIP : String) :
    Store × ApiResult PasskeyMeta :=
  match user with
  | none => (s, .err "UNAUTHORIZED" "Authentication required")
  | some u =>
      let s1 := { s with credentials := s.credentials.map fun c =>
        if (credOwnedMatch credentialId u.id c) then
          { c with authenticator_name := some authenticatorName } else c }
      match selectSingle s1.credentials (credOwnedMatch credentialId u.id) with
      | none => (s1, .err "CREDENTIAL_NOT_FOUND" "Passkey not found")
      | some updated =>
          let s2 := logAudit s1
            { event_type := .passkey_updated, user_id := some u.id,
              credential_id := some credentialId, ip_address := some clientIP }
          (s2, .ok (credMeta updated))

/-- A JavaScript value as the client error mapper discriminates it:
`instanceof Error` (with `name` and `message`), or any non-Error value
(null, undefined, string, number, plain object). -/
inductive JSValue where
  | jsNull
  | jsUndefined
  | jsString (s : String)
  | jsNumber (n : Int)
  | jsObject
  | jsError (name : String) (message : String)
deriving DecidableEq, Repr

/-- The client `PasskeyError` shape (`cause` carries the original value). -/
structure PasskeyError where
  code : String
  message : String
  cause : Option JSValue := none
deriving DecidableEq, Repr

/-- The members of the `PasskeyErrorCode` union type. -/
def passkeyErrorCodes : List String :=
  ["NOT_SUPPORTED", "INVALID_INPUT", "CANCELLED", "TIMEOUT", "INVALID_STATE",
   "SECURITY_ERROR", "CHALLENGE_EXPIRED", "CHALLENGE_MISMATCH",
   "VERIFICATION_FAILED", "CREDENTIAL_NOT_FOUND", "USER_NOT_FOUND",
   "CREDENTIAL_EXISTS", "RATE_LIMITED", "NETWORK_ERROR", "UNKNOWN_ERROR"]

/-- `createError(code, message, cause)`. -/
def createError (code message : String) (cause : Option JSValue) :
    PasskeyError :=
  { code := code, message := message, cause := cause }

/-- Substring test on character lists (JavaScript `String.includes`). -/
def charsContain (needle : List Char) : List Char → Bool
  | [] => needle.isEmpty
  | c :: rest => needle.isPrefixOf (c :: rest) || charsContain needle rest

/-- JavaScript `haystack.includes(needle)`. -/
def strIncludes (haystack needle : String) : Bool :=
  charsContain needle.data haystack.data

/-- JavaScript `String.toLowerCase` (ASCII case fold). -/
def strToLower (s : String) : String :=
  String.mk (s.data.map Char.toLower)

/-- `mapWebAuthnError`: dispatch on `error.name` for `Error` instances with
the `NotAllowedError` timeout/cancel split and the `TypeError` fetch check;
everything else falls through to `UNKNOWN_ERROR`, keeping an `Error`'s own
message. -/
def mapWebAuthnError (v : JSValue) : PasskeyError :=
  match v with
  | .jsError name message =>
    if name == "NotSupportedError" then
      createError "NOT_SUPPORTED"
        "WebAuthn is not supported in this browser or context." (some v)
    else if name == "NotAllowedError" then
      if strIncludes (strToLower message) "timeout" then
        createError "TIMEOUT" "The operation timed out. Please try again." (some v)
      else
        createError "CANCELLED" "The operation was cancelled." (some v)
    else if name == "InvalidStateError" then
      createError "INVALID_STATE"
        "A passkey for this account already exists on this device." (some v)
    else if name == "SecurityError" then
      createError "SECURITY_ERROR"
        "The operation was blocked due to security restrictions." (some v)
    else if name == "AbortError" then
      createError "CANCELLED" "The operation was aborted." (some v)
    else if name == "TypeError" && strIncludes (strToLower message) "fetch" then
      createError "NETWORK_ERROR"
        "Network request failed. Please check your connection." (some v)
    else
      createError "UNKNOWN_ERROR" message (some v)
  | other =>
      createError "UNKNOWN_ERROR" "An unknown error occurred." (some other)

/-- A JavaScript object field as `isPasskeyError` inspects it: absent,
a string, or present with some non-string value. -/
inductive JSField where
  | absent
  | strVal (s : String)
  | nonString
deriving DecidableEq, Repr

/-- The shape `isPasskeyError` probes on an arbitrary object: whether the
value is a non-null object, and its `code` and `message` fields. -/
structure JSShape where
  isObject : Bool
  code : JSField
  message : JSField
deriving DecidableEq, Repr

/-- `isPasskeyError`: non-null object with string `code` and `message`. -/
def isPasskeyError (v : JSShape) : Bool :=
  v.isObject
    && (match v.code with | .strVal _ => true | _ => false)
    && (match v.message with | .strVal _ => true | _ => false)

/-- The runtime shape of a `PasskeyError` value. -/
def passkeyErrorShape (e : PasskeyError) : JSShape :=
  { isObject := true, code := .strVal e.code, message := .strVal e.message }

/-- Number of `challenge_expired` rows in the audit log. -/
def countChallengeExpired (s : Store) : Nat :=
  (s.auditLog.filter (fun ev => ev.event_type == AuditEventType.challenge_expired)).length

section HelperLemmas

variable {α : Type}

/-- Mapping with a guarded update is the identity when no element is hit. -/
theorem map_guard_id (l : List α) (p : α → Bool) (f : α → α)
    (h : ∀ a ∈ l, p a = false) :
    (l.map fun a => if (p a) then f a else a) = l := by
  induction l with
  | nil => rfl
  | cons x xs ih =>
      have hx := h x (List.mem_cons_self x xs)
      simp only [List.map_cons, hx, if_neg Bool.false_ne_true, List.cons.injEq,
        Bool.false_eq_true, if_false, true_and]
      exact ih fun a ha => h a (List.mem_cons_of_mem x ha)

/-- `find?` skips a prefix in which nothing matches. -/
theorem find?_append_of_none (l₁ l₂ : List α) (p : α → Bool)
    (h : l₁.find? p = none) : (l₁ ++ l₂).find? p = l₂.find? p := by
  induction l₁ with
  | nil => rfl
  | cons x xs ih =>
      rw [List.find?_cons] at h
      rcases hp : p x with _ | _
      · rw [List.cons_append, List.find?_cons, hp]
        exact ih (by rwa [hp] at h)
      · rw [hp] at h
        exact absurd h (by simp)

/-- `selectSingle` misses when no element satisfies the predicate. -/
theorem selectSingle_eq_none (l : List α) (p : α → Bool)
    (h : ∀ a ∈ l, p a = false) : selectSingle l p = none := by
  have : l.filter p = [] := List.filter_eq_nil_iff.mpr (by simpa using h)
  simp [selectSingle, this]

/-- A challenge-id/kind probe finds nothing when the id is absent. -/
theorem selectSingle_challenge_absent (l : List Challenge) (cid : String)
    (t : ChallengeType) (h : ∀ c ∈ l, c.id ≠ cid) :
    selectSingle l (fun c => c.id == cid && c.type == t) = none := by
  refine selectSingle_eq_none l _ fun c hc => ?_
  have := h c hc
  simp [this]

end HelperLemmas

/-- `/register/finish` always ends with the referenced challenge id deleted:
in every branch the challenge table equals the input table minus the rows
carrying the finished ceremony id. -/
theorem registerFinish_challenges (s : Store) (ip cid : String) (an : Option String)
    (ver : Option VerifiedRegistration) (nu tok : String) (now : Nat) :
    ((registerFinish s ip cid an ver nu tok now).1).challenges
      = s.challenges.filter (fun c => !(c.id == cid)) := by
  unfold registerFinish
  rcases h : selectSingle s.challenges
      (fun c => c.id == cid && c.type == ChallengeType.registration) with _ | ch
  · simp [h]
  · simp only [h]
    by_cases hexp : ch.expires_at < now
    · simp [hexp, logAudit]
    · simp only [if_neg hexp]
      cases ver with
      | none => simp [logAudit]
      | some info =>
          cases hu : s.users.find? (fun u => u.email == ch.email) with
          | none => simp [hu, logAudit]
          | some u => simp [hu, logAudit]

/-- `/login/finish` always ends with the referenced challenge id deleted. -/
theorem loginFinish_challenges (s : Store) (ip o rp cid : String)
    (resp : AuthResponse) (tok : String) (now : Nat) :
    ((loginFinish s ip o rp cid resp tok now).1).challenges
      = s.challenges.filter (fun c => !(c.id == cid)) := by
  unfold loginFinish
  rcases h : selectSingle s.challenges
      (fun c => c.id == cid && c.type == ChallengeType.authentication) with _ | ch
  · simp [h]
  · simp only [h]
    by_cases hexp : ch.expires_at < now
    · simp [hexp]
    · simp only [if_neg hexp]
      rcases hc : selectSingle s.credentials (fun c => c.id == resp.id) with _ | cred
      · simp [hc]
      · simp only [hc]
        cases verifyAuthenticationResponse resp ch.challenge o rp cred.counter with
        | none => simp [logAudit]
        | some v => simp [logAudit]

/-- `/register/finish` on an absent (or wrong-kind) challenge id reports
`CHALLENGE_MISMATCH`. -/
theorem registerFinish_mismatch (s : Store) (ip cid : String) (an : Option String)
    (ver : Option VerifiedRegistration) (nu tok : String) (now : Nat)
    (h : selectSingle s.challenges
      (fun c => c.id == cid && c.type == ChallengeType.registration) = none) :
    (registerFinish s ip cid an ver nu tok now).2
      = .err "CHALLENGE_MISMATCH" "Invalid or expired challenge" := by
  unfold registerFinish
  simp [h]

/-- `/login/finish` on an absent (or wrong-kind) challenge id reports
`CHALLENGE_MISMATCH`. -/
theorem loginFinish_mismatch (s : Store) (ip o rp cid : String)
    (resp : AuthResponse) (tok : String) (now : Nat)
    (h : selectSingle s.challenges
      (fun c => c.id == cid && c.type == ChallengeType.authentication) = none) :
    (loginFinish s ip o rp cid resp tok now).2
      = .err "CHALLENGE_MISMATCH" "Invalid or expired challenge" := by
  unfold loginFinish
  simp [h]

/-- The rate limiter only writes the rate-limit table. -/
theorem check_rate_preserves (s : Store) (idf idt ep : String) (k now : Nat) :
    ((check_passkey_rate_limit s idf idt ep k now).1).credentials = s.credentials
    ∧ ((check_passkey_rate_limit s idf idt ep k now).1).challenges = s.challenges
    ∧ ((check_passkey_rate_limit s idf idt ep k now).1).users = s.users
    ∧ ((check_passkey_rate_limit s idf idt ep k now).1).auditLog = s.auditLog := by
  rcases h : s.rateLimits.find? (rateKey idf idt ep (dateTruncMinute now)) with _ | r <;>
    simp [check_passkey_rate_limit, h]

/-! Concrete fixtures used by witnesses and counterexamples. -/

/-- A store with no rows at all. -/
def emptyStore : Store := ⟨[], [], [], [], []⟩

/-- A pending registration challenge (expires at t = 1000). -/
def sampleRegChallenge : Challenge :=
  { id := "ch-reg", challenge := "nonce-reg", email := some "alice@example.com",
    webauthn_user_id := some "wuid-old", type := .registration, expires_at := 1000 }

/-- A pending authentication challenge (expires at t = 1000). -/
def sampleAuthChallenge : Challenge :=
  { id := "ch-auth", challenge := "nonce-auth", email := some "alice@example.com",
    webauthn_user_id := none, type := .authentication, expires_at := 1000 }

/-- A stored credential owned by account `user-b` with counter 7. -/
def sampleCredential : Credential :=
  { id := "cred-1", user_id := "user-b", webauthn_user_id := some "wuid-old",
    public_key := "aabb", counter := 7, device_type := "multiDevice",
    backed_up := false, transports := ["internal"],
    authenticator_name := some "Test Passkey", created_at := 0,
    last_used_at := none }

/-- The account that owns `sampleCredential`. -/
def sampleUserB : AuthUser := { id := "user-b", email := some "alice@example.com" }

/-- A different authenticated caller. -/
def sampleUserA : AuthUser := { id := "user-a", email := some "mallory@example.com" }

/-- An assertion response for `sampleCredential` whose embedded counter (7)
is not strictly greater than the stored counter (7). -/
def sampleLowCounterResponse : AuthResponse :=
  { id := "cred-1", embeddedChallenge := "nonce-auth",
    embeddedOrigin := "http://localhost:3000", embeddedRpId := "localhost",
    counter := 7, signatureValid := true }

/-- Store holding one pending registration and one pending authentication
challenge, the sample credential and its owning account. -/
def sampleStore : Store :=
  ⟨[sampleCredential], [sampleRegChallenge, sampleAuthChallenge], [], [], [sampleUserB]⟩

/-- C1: For every ceremony (registration or authentication), the challenge
record referenced by a finish-call is absent from the store immediately after
that call regardless of verification outcome, and any second finish-call with
the same ceremony identity returns error `CHALLENGE_MISMATCH`, never a stale
success. -/
theorem finished_challenge_consumed_and_second_finish_mismatches
    (s : Store) (ip o rp cid : String) (an : Option String)
    (ver : Option VerifiedRegistration) (nu tok : String)
    (resp : AuthResponse) (tok2 : String) (now now2 : Nat) :
    (∀ c ∈ ((registerFinish s ip cid an ver nu tok now).1).challenges, c.id ≠ cid)
    ∧ (registerFinish (registerFinish s ip cid an ver nu tok now).1
        ip cid an ver nu tok now2).2
        = .err "CHALLENGE_MISMATCH" "Invalid or expired challenge"
    ∧ (loginFinish (registerFinish s ip cid an ver nu tok now).1
        ip o rp cid resp tok2 now2).2
        = .err "CHALLENGE_MISMATCH" "Invalid or expired challenge"
    ∧ (∀ c ∈ ((loginFinish s ip o rp cid resp tok now).1).challenges, c.id ≠ cid)
    ∧ (registerFinish (loginFinish s ip o rp cid resp tok now).1
        ip cid an ver nu tok now2).2
        = .err "CHALLENGE_MISMATCH" "Invalid or expired challenge"
    ∧ (loginFinish (loginFinish s ip o rp cid resp tok now).1
        ip o rp cid resp tok2 now2).2
        = .err "CHALLENGE_MISMATCH" "Invalid or expired challenge" := by
  have habsR : ∀ c ∈ ((registerFinish s ip cid an ver nu tok now).1).challenges,
      c.id ≠ cid := by
    intro c hc
    rw [registerFinish_challenges] at hc
    have := (List.mem_filter.mp hc).2
    simpa using this
  have habsL : ∀ c ∈ ((loginFinish s ip o rp cid resp tok now).1).challenges,
      c.id ≠ cid := by
    intro c hc
    rw [loginFinish_challenges] at hc
    have := (List.mem_filter.mp hc).2
    simpa using this
  refine ⟨habsR, ?_, ?_, habsL, ?_, ?_⟩
  · exact registerFinish_mismatch _ _ _ _ _ _ _ _
      (selectSingle_challenge_absent _ _ _ habsR)
  · exact loginFinish_mismatch _ _ _ _ _ _ _ _
      (selectSingle_challenge_absent _ _ _ habsR)
  · exact registerFinish_mismatch _ _ _ _ _ _ _ _
      (selectSingle_challenge_absent _ _ _ habsL)
  · exact loginFinish_mismatch _ _ _ _ _ _ _ _
      (selectSingle_challenge_absent _ _ _ habsL)

/-- Witness for C1 at a concrete store: finishing `"ch-reg"` removes it and
a repeated finish against either endpoint yields `CHALLENGE_MISMATCH`. -/
theorem finished_challenge_consumed_witness :
    (registerFinish (registerFinish sampleStore "9.9.9.9" "ch-reg" none none
        "nu" "tok" 500).1 "9.9.9.9" "ch-reg" none none "nu" "tok" 500).2
      = .err "CHALLENGE_MISMATCH" "Invalid or expired challenge"
    ∧ (loginFinish (registerFinish sampleStore "9.9.9.9" "ch-reg" none none
        "nu" "tok" 500).1 "9.9.9.9" "http://localhost:3000" "localhost" "ch-reg"
        sampleLowCounterResponse "tok" 500).2
      = .err "CHALLENGE_MISMATCH" "Invalid or expired challenge" :=
  ⟨(finished_challenge_consumed_and_second_finish_mismatches sampleStore
      "9.9.9.9" "http://localhost:3000" "localhost" "ch-reg" none none "nu" "tok"
      sampleLowCounterResponse "tok" 500 500).2.1,
   (finished_challenge_consumed_and_second_finish_mismatches sampleStore
      "9.9.9.9" "http://localhost:3000" "localhost" "ch-reg" none none "nu" "tok"
      sampleLowCounterResponse "tok" 500 500).2.2.1⟩

/-- C2: A finish-authentication call whose response carries an embedded
signature counter less than or equal to the looked-up credential's stored
counter fails with `VERIFICATION_FAILED` and leaves the credential table —
in particular the stored counter and last-used timestamp — unchanged; the
counter update happens only after the verifier reports success. -/
theorem stale_counter_rejected_without_update
    (s : Store) (ip o rp cid : String) (resp : AuthResponse) (tok : String)
    (now : Nat) (ch : Challenge) (cred : Credential)
    (hch : selectSingle s.challenges
      (fun c => c.id == cid && c.type == ChallengeType.authentication) = some ch)
    (hexp : ¬ ch.expires_at < now)
    (hcred : selectSingle s.credentials (fun c => c.id == resp.id) = some cred)
    (hcnt : resp.counter ≤ cred.counter) :
    (loginFinish s ip o rp cid resp tok now).2
      = .err "VERIFICATION_FAILED" "Authentication verification failed"
    ∧ ((loginFinish s ip o rp cid resp tok now).1).credentials = s.credentials := by
  have hlt : ¬ cred.counter < resp.counter := Nat.not_lt.mpr hcnt
  have hv : verifyAuthenticationResponse resp ch.challenge o rp cred.counter
      = none := by
    simp [verifyAuthenticationResponse, hlt]
  constructor <;> simp [loginFinish, hch, if_neg hexp, hcred, hv, logAudit]

/-- Witness for C2: counter 7 against stored counter 7 on a live challenge
fails and leaves the stored credential row untouched. -/
theorem stale_counter_rejected_witness :
    (loginFinish sampleStore "9.9.9.9" "http://localhost:3000" "localhost"
        "ch-auth" sampleLowCounterResponse "tok" 500).2
      = .err "VERIFICATION_FAILED" "Authentication verification failed"
    ∧ ((loginFinish sampleStore "9.9.9.9" "http://localhost:3000" "localhost"
        "ch-auth" sampleLowCounterResponse "tok" 500).1).credentials
      = sampleStore.credentials :=
  stale_counter_rejected_without_update sampleStore "9.9.9.9"
    "http://localhost:3000" "localhost" "ch-auth" sampleLowCounterResponse
    "tok" 500 sampleAuthChallenge sampleCredential (by decide) (by decide)
    (by decide) (by decide)

/-- C3 counterexample: finishing the expired authentication challenge
`"ch-auth"` at t = 2000 returns `CHALLENGE_EXPIRED` but appends no
`challenge_expired` audit event at all, so an expired finish-call does not
always produce exactly one such event and the expired handling of
finish-authentication differs from finish-registration. -/
theorem expired_auth_finish_logs_no_event :
    (loginFinish sampleStore "9.9.9.9" "http://localhost:3000" "localhost"
        "ch-auth" sampleLowCounterResponse "tok" 2000).2
      = .err "CHALLENGE_EXPIRED" "Challenge has expired"
    ∧ countChallengeExpired
        (loginFinish sampleStore "9.9.9.9" "http://localhost:3000" "localhost"
          "ch-auth" sampleLowCounterResponse "tok" 2000).1 = 0 := by
  decide

/-- C3 (amended): a finish-registration call referencing an expired
challenge returns `CHALLENGE_EXPIRED` and appends exactly one
`challenge_expired` audit event, while a finish-authentication call
referencing an expired challenge returns the same `CHALLENGE_EXPIRED` error
but appends no `challenge_expired` audit event. -/
theorem expired_finish_audit_behavior
    (s : Store) (ip o rp cid : String) (an : Option String)
    (ver : Option VerifiedRegistration) (nu tok : String)
    (resp : AuthResponse) (tok2 : String) (now : Nat) :
    (∀ ch, selectSingle s.challenges
        (fun c => c.id == cid && c.type == ChallengeType.registration) = some ch →
      ch.expires_at < now →
      (registerFinish s ip cid an ver nu tok now).2
        = .err "CHALLENGE_EXPIRED" "Challenge has expired"
      ∧ countChallengeExpired (registerFinish s ip cid an ver nu tok now).1
          = countChallengeExpired s + 1)
    ∧ (∀ ch, selectSingle s.challenges
        (fun c => c.id == cid && c.type == ChallengeType.authentication) = some ch →
      ch.expires_at < now →
      (loginFinish s ip o rp cid resp tok2 now).2
        = .err "CHALLENGE_EXPIRED" "Challenge has expired"
      ∧ countChallengeExpired (loginFinish s ip o rp cid resp tok2 now).1
          = countChallengeExpired s) := by
  constructor
  · intro ch hch hexp
    constructor <;>
      (simp [registerFinish, hch, hexp, logAudit, countChallengeExpired,
        List.filter_append] <;> rfl)
  · intro ch hch hexp
    constructor <;>
      simp [loginFinish, hch, hexp, logAudit, countChallengeExpired]

/-- Witness for C3 (amended) at the concrete store: the expired registration
challenge produces one event, the expired authentication challenge none. -/
theorem expired_finish_audit_witness :
    ((registerFinish sampleStore "9.9.9.9" "ch-reg" none none "nu" "tok" 2000).2
        = .err "CHALLENGE_EXPIRED" "Challenge has expired"
      ∧ countChallengeExpired
          (registerFinish sampleStore "9.9.9.9" "ch-reg" none none "nu" "tok" 2000).1
        = countChallengeExpired sampleStore + 1)
    ∧ ((loginFinish sampleStore "9.9.9.9" "http://localhost:3000" "localhost"
          "ch-auth" sampleLowCounterResponse "tok" 2000).2
        = .err "CHALLENGE_EXPIRED" "Challenge has expired"
      ∧ countChallengeExpired
          (loginFinish sampleStore "9.9.9.9" "http://localhost:3000" "localhost"
            "ch-auth" sampleLowCounterResponse "tok" 2000).1
        = countChallengeExpired sampleStore) :=
  ⟨(expired_finish_audit_behavior sampleStore "9.9.9.9" "http://localhost:3000"
      "localhost" "ch-reg" none none "nu" "tok" sampleLowCounterResponse "tok"
      2000).1 sampleRegChallenge (by decide) (by decide),
   (expired_finish_audit_behavior sampleStore "9.9.9.9" "http://localhost:3000"
      "localhost" "ch-auth" none none "nu" "tok" sampleLowCounterResponse "tok"
      2000).2 sampleAuthChallenge (by decide) (by decide)⟩

/-- `/register/finish` never touches the rate-limit table. -/
theorem registerFinish_rateLimits (s : Store) (ip cid : String)
    (an : Option String) (ver : Option VerifiedRegistration) (nu tok : String)
    (now : Nat) :
    ((registerFinish s ip cid an ver nu tok now).1).rateLimits = s.rateLimits := by
  unfold registerFinish
  rcases h : selectSingle s.challenges
      (fun c => c.id == cid && c.type == ChallengeType.registration) with _ | ch
  · simp [h]
  · simp only [h]
    by_cases hexp : ch.expires_at < now
    · simp [hexp, logAudit]
    · simp only [if_neg hexp]
      cases ver with
      | none => simp [logAudit]
      | some info =>
          cases hu : s.users.find? (fun u => u.email == ch.email) with
          | none => simp [hu, logAudit]
          | some u => simp [hu, logAudit]

/-- `/login/finish` never touches the rate-limit table. -/
theorem loginFinish_rateLimits (s : Store) (ip o rp cid : String)
    (resp : AuthResponse) (tok : String) (now : Nat) :
    ((loginFinish s ip o rp cid resp tok now).1).rateLimits = s.rateLimits := by
  unfold loginFinish
  rcases h : selectSingle s.challenges
      (fun c => c.id == cid && c.type == ChallengeType.authentication) with _ | ch
  · simp [h]
  · simp only [h]
    by_cases hexp : ch.expires_at < now
    · simp [hexp]
    · simp only [if_neg hexp]
      rcases hc : selectSingle s.credentials (fun c => c.id == resp.id) with _ | cred
      · simp [hc]
      · simp only [hc]
        cases verifyAuthenticationResponse resp ch.challenge o rp cred.counter with
        | none => simp [logAudit]
        | some v => simp [logAudit]

/-- C4 (code bug evidence): only the two begin endpoints evaluate a rate
limiter, and only with an IP-scoped identifier.  A `/register/start` call
carrying an email creates no `identifier_type = 'email'` rate-limit row and
still succeeds, and the finish endpoints never consult or write the
rate-limit table at all — contradicting the claim (and the repository's own
email-rate-limiting tests) that an email-scoped limiter is evaluated
whenever an email is available. -/
theorem email_scoped_limiter_never_evaluated :
    ((registerStart emptyStore "203.0.113.7" "http://localhost:3000" "localhost"
        "App" "alice@example.com" "wuid-new" "nonce-1" "ch-new" 0).2
      = .ok { rpId := "localhost", rpName := "App", challengeNonce := "nonce-1",
              excludeCredentials := [], challengeId := "ch-new" })
    ∧ (((registerStart emptyStore "203.0.113.7" "http://localhost:3000"
          "localhost" "App" "alice@example.com" "wuid-new" "nonce-1" "ch-new"
          0).1).rateLimits.filter (fun r => r.identifier_type == "email") = [])
    ∧ (∀ s ip cid an ver nu tok now,
        ((registerFinish s ip cid an ver nu tok now).1).rateLimits = s.rateLimits)
    ∧ (∀ s ip o rp cid resp tok now,
        ((loginFinish s ip o rp cid resp tok now).1).rateLimits = s.rateLimits) :=
  ⟨by decide, by decide,
   fun s ip cid an ver nu tok now =>
     registerFinish_rateLimits s ip cid an ver nu tok now,
   fun s ip o rp cid resp tok now =>
     loginFinish_rateLimits s ip o rp cid resp tok now⟩

/-- `n` consecutive `check_passkey_rate_limit` calls with one window key. -/
def rateCallsN (s : Store) (idf idt ep : String) (maxA now : Nat) : Nat → Store × Bool
  | 0 => (s, false)
  | n + 1 =>
      check_passkey_rate_limit (rateCallsN s idf idt ep maxA now n).1
        idf idt ep maxA now

/-- In a fresh window the `(n+1)`-st call leaves the counter row at `n + 1`
and reports blocked exactly when the post-increment count crosses the
ceiling. -/
theorem rateCallsN_invariant (s : Store) (idf idt ep : String) (maxA now : Nat)
    (hf : ∀ r ∈ s.rateLimits, rateKey idf idt ep (dateTruncMinute now) r = false) :
    ∀ n, ((rateCallsN s idf idt ep maxA now (n + 1)).1).rateLimits
        = s.rateLimits ++ [⟨idf, idt, ep, n + 1, dateTruncMinute now⟩]
      ∧ (rateCallsN s idf idt ep maxA now (n + 1)).2 = decide (n + 1 > maxA) := by
  have hnone : s.rateLimits.find? (rateKey idf idt ep (dateTruncMinute now)) = none :=
    List.find?_eq_none.mpr fun r hr => by simp [hf r hr]
  intro n
  induction n with
  | zero =>
      constructor <;> simp [rateCallsN, check_passkey_rate_limit, hnone]
  | succ m ih =>
      obtain ⟨hst, _⟩ := ih
      have hrowkey : rateKey idf idt ep (dateTruncMinute now)
          ⟨idf, idt, ep, m + 1, dateTruncMinute now⟩ = true := by
        simp [rateKey]
      have hfind : ((rateCallsN s idf idt ep maxA now (m + 1)).1).rateLimits.find?
          (rateKey idf idt ep (dateTruncMinute now))
          = some ⟨idf, idt, ep, m + 1, dateTruncMinute now⟩ := by
        rw [hst, find?_append_of_none _ _ _ hnone]
        simp [List.find?_cons, hrowkey]
      have hmap : ((rateCallsN s idf idt ep maxA now (m + 1)).1).rateLimits.map
          (fun q => if (rateKey idf idt ep (dateTruncMinute now) q) then
            { q with attempt_count := q.attempt_count + 1 } else q)
          = s.rateLimits ++ [⟨idf, idt, ep, m + 1 + 1, dateTruncMinute now⟩] := by
        rw [hst, List.map_append, map_guard_id _ _ _ fun a ha => hf a ha]
        simp [hrowkey]
      constructor
      · show ((check_passkey_rate_limit
            (rateCallsN s idf idt ep maxA now (m + 1)).1
            idf idt ep maxA now).1).rateLimits = _
        simp only [check_passkey_rate_limit, hfind]
        exact hmap
      · show (check_passkey_rate_limit
            (rateCallsN s idf idt ep maxA now (m + 1)).1
            idf idt ep maxA now).2 = _
        simp only [check_passkey_rate_limit, hfind]

/-- C5: the rate limiter increments the current window's counter and
compares the post-increment value against the ceiling, so in a fresh window
with ceiling `maxA` attempts `1 … maxA` are allowed and attempt `maxA + 1`
is the first one rejected. -/
theorem rate_limiter_allows_ceiling_then_blocks
    (s : Store) (idf idt ep : String) (maxA now : Nat)
    (hf : ∀ r ∈ s.rateLimits, rateKey idf idt ep (dateTruncMinute now) r = false) :
    (∀ j, 1 ≤ j → j ≤ maxA → (rateCallsN s idf idt ep maxA now j).2 = false)
    ∧ (rateCallsN s idf idt ep maxA now (maxA + 1)).2 = true := by
  constructor
  · intro j h1 h2
    obtain ⟨m, rfl⟩ : ∃ m, j = m + 1 := ⟨j - 1, by omega⟩
    rw [(rateCallsN_invariant s idf idt ep maxA now hf m).2]
    simp
    omega
  · rw [(rateCallsN_invariant s idf idt ep maxA now hf maxA).2]
    simp

/-- Witness for C5: empty table, ceiling 2 — attempts 1 and 2 pass, attempt
3 is blocked. -/
theorem rate_limiter_ceiling_witness :
    (∀ r ∈ emptyStore.rateLimits,
      rateKey "1.2.3.4" "ip" "/register/start" (dateTruncMinute 0) r = false)
    ∧ (rateCallsN emptyStore "1.2.3.4" "ip" "/register/start" 2 0 1).2 = false
    ∧ (rateCallsN emptyStore "1.2.3.4" "ip" "/register/start" 2 0 2).2 = false
    ∧ (rateCallsN emptyStore "1.2.3.4" "ip" "/register/start" 2 0 3).2 = true :=
  ⟨by simp [emptyStore],
   (rate_limiter_allows_ceiling_then_blocks emptyStore "1.2.3.4" "ip"
      "/register/start" 2 0 (by simp [emptyStore])).1 1 (by decide) (by decide),
   (rate_limiter_allows_ceiling_then_blocks emptyStore "1.2.3.4" "ip"
      "/register/start" 2 0 (by simp [emptyStore])).1 2 (by decide) (by decide),
   (rate_limiter_allows_ceiling_then_blocks emptyStore "1.2.3.4" "ip"
      "/register/start" 2 0 (by simp [emptyStore])).2⟩

/-- C6 counterexample: a remove request authenticated as `user-a` naming the
credential owned by `user-b` deletes nothing — the credential survives — yet
the endpoint reports `{ removed: true }` success, not `CREDENTIAL_NOT_FOUND`
or any other not-found outcome. -/
theorem crossaccount_remove_reports_success :
    (passkeysRemove sampleStore (some sampleUserA) "cred-1" "9.9.9.9").2 = .ok true
    ∧ sampleCredential ∈
        ((passkeysRemove sampleStore (some sampleUserA) "cred-1" "9.9.9.9").1).credentials := by
  decide

/-- C6 (amended): a remove or update request authenticated as account A
naming a credential owned by a different account B leaves the credential and
its label unchanged; the update endpoint reports `CREDENTIAL_NOT_FOUND`,
but the remove endpoint reports success (`removed: true`) anyway. -/
theorem crossaccount_remove_update_leave_credential
    (s : Store) (u : AuthUser) (cred : Credential) (nm ip : String)
    (hmem : cred ∈ s.credentials)
    (howner : cred.user_id ≠ u.id)
    (huniq : ∀ c ∈ s.credentials, c.id = cred.id → c = cred) :
    ((passkeysRemove s (some u) cred.id ip).1).credentials = s.credentials
    ∧ (passkeysRemove s (some u) cred.id ip).2 = .ok true
    ∧ ((passkeysUpdate s (some u) cred.id nm ip).1).credentials = s.credentials
    ∧ (passkeysUpdate s (some u) cred.id nm ip).2
        = .err "CREDENTIAL_NOT_FOUND" "Passkey not found" := by
  have hall : ∀ c ∈ s.credentials, credOwnedMatch cred.id u.id c = false := by
    intro c hc
    by_cases hid : c.id = cred.id
    · have hcc : c = cred := huniq c hc hid
      subst hcc
      simp [credOwnedMatch, howner]
    · simp [credOwnedMatch, hid]
  have hmap : (s.credentials.map fun c =>
      if (credOwnedMatch cred.id u.id c) then
        { c with authenticator_name := some nm } else c) = s.credentials :=
    map_guard_id _ _ _ hall
  have hsel : selectSingle s.credentials (credOwnedMatch cred.id u.id) = none :=
    selectSingle_eq_none _ _ hall
  have hfilter : (s.credentials.filter fun c =>
      !(credOwnedMatch cred.id u.id c)) = s.credentials := by
    rw [List.filter_eq_self]
    intro a ha
    simp [hall a ha]
  refine ⟨?_, ?_, ?_, ?_⟩
  · simp only [passkeysRemove, logAudit]
    exact hfilter
  · simp only [passkeysRemove, logAudit]
  · simp only [passkeysUpdate, logAudit]
    rw [hmap, hsel]
  · simp only [passkeysUpdate, logAudit]
    rw [hmap, hsel]

/-- Witness for C6 (amended) at the concrete store: caller `user-a` against
the credential of `user-b`. -/
theorem crossaccount_leave_credential_witness :
    ((passkeysRemove sampleStore (some sampleUserA) "cred-1" "9.9.9.9").1).credentials
      = sampleStore.credentials
    ∧ (passkeysRemove sampleStore (some sampleUserA) "cred-1" "9.9.9.9").2 = .ok true
    ∧ ((passkeysUpdate sampleStore (some sampleUserA) "cred-1" "Hacked"
        "9.9.9.9").1).credentials = sampleStore.credentials
    ∧ (passkeysUpdate sampleStore (some sampleUserA) "cred-1" "Hacked" "9.9.9.9").2
        = .err "CREDENTIAL_NOT_FOUND" "Passkey not found" :=
  crossaccount_remove_update_leave_credential sampleStore sampleUserA
    sampleCredential "Hacked" "9.9.9.9" (by decide) (by decide) (by decide)

/-- C7 (code bug evidence): `alice@example.com` resolves to account `user-b`
which owns credential `cred-1`, yet the begin-registration options exclude
nothing — the exclusion query is keyed on the freshly generated
`webauthnUserId` (`"wuid-new"`), which matches no stored credential, instead
of on the email's account. -/
theorem exclusion_list_empty_for_existing_account :
    ((registerStart sampleStore "203.0.113.7" "http://localhost:3000" "localhost"
        "App" "alice@example.com" "wuid-new" "nonce-1" "ch-new" 0).2
      = .ok { rpId := "localhost", rpName := "App", challengeNonce := "nonce-1",
              excludeCredentials := [], challengeId := "ch-new" })
    ∧ (sampleStore.users.find? (fun u => u.email == some "alice@example.com")
        = some sampleUserB)
    ∧ ((sampleStore.credentials.filter (fun c => c.user_id == sampleUserB.id)).map
        (fun c => c.id) = ["cred-1"]) := by
  decide

/-- C8: begin-authentication with an email that resolves to no account, or
to an account with zero stored credentials, returns `CREDENTIAL_NOT_FOUND`
and creates no challenge row. -/
theorem login_start_unknown_email_creates_no_challenge
    (s : Store) (ip rp e nonce ncid : String) (now : Nat)
    (hnb : (check_passkey_rate_limit s ip "ip" "/login/start"
        rateLimitIpMaxAttempts now).2 = false)
    (hres : s.users.find? (fun u => u.email == some e) = none
      ∨ ∃ user, s.users.find? (fun u => u.email == some e) = some user
          ∧ s.credentials.filter (fun c => c.user_id == user.id) = []) :
    (loginStart s ip rp (some e) nonce ncid now).2
      = .err "CREDENTIAL_NOT_FOUND" "No passkey found for this email"
    ∧ ((loginStart s ip rp (some e) nonce ncid now).1).challenges = s.challenges := by
  obtain ⟨hcred, hchal, husers, -⟩ :=
    check_rate_preserves s ip "ip" "/login/start" rateLimitIpMaxAttempts now
  rcases hc : check_passkey_rate_limit s ip "ip" "/login/start"
      rateLimitIpMaxAttempts now with ⟨s1, b⟩
  rw [hc] at hnb hcred hchal husers
  simp only at hnb hcred hchal husers
  subst hnb
  rcases hres with h | ⟨user, hu, hcreds⟩
  · constructor <;>
      simp [loginStart, hc, husers, hchal, h]
  · constructor <;>
      simp [loginStart, hc, husers, hcred, hchal, hu, hcreds]

/-- Witness for C8: a store whose only account has no credentials. -/
theorem login_start_unknown_email_witness :
    (loginStart ⟨[], [], [], [], [sampleUserB]⟩ "1.2.3.4" "localhost"
        (some "alice@example.com") "nonce-2" "ch-x" 0).2
      = .err "CREDENTIAL_NOT_FOUND" "No passkey found for this email"
    ∧ ((loginStart ⟨[], [], [], [], [sampleUserB]⟩ "1.2.3.4" "localhost"
        (some "alice@example.com") "nonce-2" "ch-x" 0).1).challenges = [] :=
  login_start_unknown_email_creates_no_challenge ⟨[], [], [], [], [sampleUserB]⟩
    "1.2.3.4" "localhost" "alice@example.com" "nonce-2" "ch-x" 0 (by decide)
    (Or.inr ⟨sampleUserB, by decide, by decide⟩)

/-- C9: a finish-call referencing an existing challenge of the wrong kind
returns `CHALLENGE_MISMATCH` but still deletes that challenge: the
unconditional delete is keyed by the ceremony id alone, so the mismatched
challenge cannot be finished against its correct endpoint afterwards. -/
theorem wrong_kind_finish_mismatches_but_deletes
    (s : Store) (ip o rp cid : String) (an : Option String)
    (ver : Option VerifiedRegistration) (nu tok tok2 : String)
    (resp : AuthResponse) (now : Nat) (ch : Challenge)
    (hmem : ch ∈ s.challenges) (hid : ch.id = cid)
    (huniq : ∀ c ∈ s.challenges, c.id = cid → c = ch) :
    (ch.type = ChallengeType.registration →
      (loginFinish s ip o rp cid resp tok now).2
        = .err "CHALLENGE_MISMATCH" "Invalid or expired challenge"
      ∧ ∀ c ∈ ((loginFinish s ip o rp cid resp tok now).1).challenges, c.id ≠ cid)
    ∧ (ch.type = ChallengeType.authentication →
      (registerFinish s ip cid an ver nu tok2 now).2
        = .err "CHALLENGE_MISMATCH" "Invalid or expired challenge"
      ∧ ∀ c ∈ ((registerFinish s ip cid an ver nu tok2 now).1).challenges,
          c.id ≠ cid) := by
  constructor
  · intro ht
    have hsel : selectSingle s.challenges
        (fun c => c.id == cid && c.type == ChallengeType.authentication) = none := by
      refine selectSingle_eq_none _ _ fun c hc => ?_
      by_cases hcid : c.id = cid
      · have hcc : c = ch := huniq c hc hcid
        subst hcc
        simp only [ht]
        cases c.id == cid <;> rfl
      · simp [hcid]
    refine ⟨loginFinish_mismatch _ _ _ _ _ _ _ _ hsel, fun c hc => ?_⟩
    rw [loginFinish_challenges] at hc
    have := (List.mem_filter.mp hc).2
    simpa using this
  · intro ht
    have hsel : selectSingle s.challenges
        (fun c => c.id == cid && c.type == ChallengeType.registration) = none := by
      refine selectSingle_eq_none _ _ fun c hc => ?_
      by_cases hcid : c.id = cid
      · have hcc : c = ch := huniq c hc hcid
        subst hcc
        simp only [ht]
        cases c.id == cid <;> rfl
      · simp [hcid]
    refine ⟨registerFinish_mismatch _ _ _ _ _ _ _ _ hsel, fun c hc => ?_⟩
    rw [registerFinish_challenges] at hc
    have := (List.mem_filter.mp hc).2
    simpa using this

/-- Witness for C9: the pending registration challenge `"ch-reg"` finished
against `/login/finish` yields `CHALLENGE_MISMATCH` yet is deleted. -/
theorem wrong_kind_finish_witness :
    (loginFinish sampleStore "9.9.9.9" "http://localhost:3000" "localhost"
        "ch-reg" sampleLowCounterResponse "tok" 500).2
      = .err "CHALLENGE_MISMATCH" "Invalid or expired challenge"
    ∧ ∀ c ∈ ((loginFinish sampleStore "9.9.9.9" "http://localhost:3000"
        "localhost" "ch-reg" sampleLowCounterResponse "tok" 500).1).challenges,
        c.id ≠ "ch-reg" :=
  (wrong_kind_finish_mismatches_but_deletes sampleStore "9.9.9.9"
      "http://localhost:3000" "localhost" "ch-reg" none none "nu" "tok" "tok2"
      sampleLowCounterResponse 500 sampleRegChallenge (by decide) (by decide)
      (by decide)).1 (by decide)

/-- C10 counterexample: an `Error` with an unrecognized name and an empty
message maps to `UNKNOWN_ERROR` carrying that empty message, so the mapper
does not always return a non-empty message. -/
theorem unknown_error_message_can_be_empty :
    (mapWebAuthnError (JSValue.jsError "SomeError" "")).code = "UNKNOWN_ERROR"
    ∧ (mapWebAuthnError (JSValue.jsError "SomeError" "")).message = "" := by
  decide

/-- C10 (amended): `mapWebAuthnError` is total — for every input value it
returns a `PasskeyError` whose code is a member of the `PasskeyErrorCode`
set and whose message is a string (possibly empty, when an unrecognized
`Error`'s own message is empty), so `isPasskeyError` holds of the result;
`Error`s whose name matches none of the handled names map to
`UNKNOWN_ERROR`, and `NotAllowedError` maps to `TIMEOUT` when its message
contains `'timeout'` case-insensitively, else `CANCELLED`. -/
theorem mapWebAuthnError_total_and_classified :
    (∀ v : JSValue, (mapWebAuthnError v).code ∈ passkeyErrorCodes
      ∧ isPasskeyError (passkeyErrorShape (mapWebAuthnError v)) = true)
    ∧ (∀ name msg,
        name ∉ ["NotSupportedError", "NotAllowedError", "InvalidStateError",
          "SecurityError", "AbortError", "TypeError"] →
        (mapWebAuthnError (JSValue.jsError name msg)).code = "UNKNOWN_ERROR")
    ∧ (∀ msg, (mapWebAuthnError (JSValue.jsError "NotAllowedError" msg)).code
        = if (strIncludes (strToLower msg) "timeout") then "TIMEOUT"
          else "CANCELLED") := by
  refine ⟨fun v => ⟨?_, ?_⟩, fun name msg h => ?_, fun msg => ?_⟩
  · cases v <;> simp only [mapWebAuthnError] <;>
      first
        | (split_ifs <;> simp [createError, passkeyErrorCodes])
        | simp [createError, passkeyErrorCodes]
  · cases v <;> simp only [mapWebAuthnError] <;>
      first
        | (split_ifs <;> simp [createError, isPasskeyError, passkeyErrorShape])
        | simp [createError, isPasskeyError, passkeyErrorShape]
  · simp only [List.mem_cons, List.not_mem_nil, or_false, not_or] at h
    obtain ⟨h1, h2, h3, h4, h5, h6⟩ := h
    simp [mapWebAuthnError, h1, h2, h3, h4, h5, h6, createError]
  · by_cases ht : strIncludes (strToLower msg) "timeout" <;>
      simp [mapWebAuthnError, ht, createError]

/-- Witness for C10 (amended) at concrete inputs. -/
theorem mapWebAuthnError_classified_witness :
    ((mapWebAuthnError (JSValue.jsError "WeirdError" "boom")).code
        ∈ passkeyErrorCodes)
    ∧ (mapWebAuthnError (JSValue.jsError "WeirdError" "boom")).code
        = "UNKNOWN_ERROR"
    ∧ (mapWebAuthnError (JSValue.jsError "NotAllowedError" "hit a TIMEOUT")).code
        = if (strIncludes (strToLower "hit a TIMEOUT") "timeout") then "TIMEOUT"
          else "CANCELLED" :=
  ⟨(mapWebAuthnError_total_and_classified.1 (JSValue.jsError "WeirdError" "boom")).1,
   mapWebAuthnError_total_and_classified.2.1 "WeirdError" "boom" (by decide),
   mapWebAuthnError_total_and_classified.2.2 "hit a TIMEOUT"⟩
